import Mathlib

/-
Verification of the embedding-cache core of the vector-embeddings document
manager (src/src/main.py), shallowly embedded in Lean 4.

Modelling conventions:
  * A document record (the JSON object written per document) is `Doc`.
    Python floats are modelled as rationals; a missing or null `embedding`
    field is modelled as the empty list (the source only ever inspects the
    field through Python falsiness, where `None` and `[]` coincide, before
    using it as a vector).
  * The embeddings directory is an association list from file stem to
    `DiskFile` (a parseable record or a corrupt JSON file); its list order
    stands for glob order.  `embeddings_cache` is an association list in
    dict insertion order.  `ainsert` models Python dict assignment
    (replace in place, else append) and writing a file into a directory.
  * `np.linalg.norm` is the square root of the sum of squares.  The square
    root is kept as an explicit function argument `sqrtF`; theorems either
    hold for every `sqrtF` or assume the single property of the real
    square root they need (such as `sqrtF 0 = 0`).  `normSq` is the sum of
    squares, so `sqrtF normSq` is the norm.
  * Exceptions are modelled with `Except`; functions that additionally
    mutate state or consume the remote provider return the new state and
    instrumentation counters (provider calls, sleep durations, disk reads)
    explicitly.
  * The remote embedding provider is a function from attempt index to
    `ProviderOutcome`, covering the exception classes the source catches.
  * Wall-clock timestamps (`datetime.now().isoformat()`) are a `Nat`
    parameter `now`.
-/

namespace VecEmb

/-- A document record: the JSON object produced by add_document and stored
one-per-file in the embeddings directory. -/
structure Doc where
  original_filename : String
  original_path : String
  file_type : String
  content : String
  embedding : List ℚ
  added_date : Nat
deriving Repr, DecidableEq

/-- A file in the embeddings directory: either a record that parses as
JSON, or a corrupt file (json.load raises JSONDecodeError). -/
inductive DiskFile where
  | good (doc : Doc)
  | corrupt
deriving Repr, DecidableEq

/-- The cache_metadata dict.  Fields are optional: a fresh dict has none of
them, build_cache replaces the whole dict, add_document updates two keys. -/
structure CacheMetadata where
  last_built : Option Nat
  last_updated : Option Nat
  total_documents : Option Nat
  cache_version : Option String
deriving Repr, DecidableEq

/-- The empty cache_metadata dict. -/
def emptyMeta : CacheMetadata := ⟨none, none, none, none⟩

/-- The state of a DocumentManager: the embeddings directory (stem ↦ file),
the in-memory embeddings_cache dict, the pickled snapshot file
(embeddings_cache.pkl) and the metadata file. -/
structure DMState where
  disk : List (String × DiskFile)
  cache : List (String × Doc)
  snapshot : List (String × Doc)
  metadata : CacheMetadata
deriving Repr, DecidableEq

/-- Association-list lookup, modelling Python dict lookup and reading the
file with a given stem from a directory. -/
def alookup {α : Type} : List (String × α) → String → Option α
  | [], _ => none
  | (k, v) :: rest, key => if k = key then some v else alookup rest key

/-- Association-list insertion modelling Python dict assignment: replace
the value in place if the key is present, else append at the end.  The
same operation models writing a file into a directory (overwrite or
create). -/
def ainsert {α : Type} : List (String × α) → String → α → List (String × α)
  | [], key, v => [(key, v)]
  | (k, w) :: rest, key, v =>
      if k = key then (k, v) :: rest else (k, w) :: ainsert rest key v

/-- is_cache_valid: set equality between the stems of the *.json files in
the embeddings directory and the keys of the in-memory cache.  The glob
lists every *.json file, corrupt ones included. -/
def is_cache_valid (st : DMState) : Bool :=
  decide ((∀ k ∈ st.disk.map Prod.fst, k ∈ st.cache.map Prod.fst) ∧
          (∀ k ∈ st.cache.map Prod.fst, k ∈ st.disk.map Prod.fst))

/-- The loop body of build_cache: starting from the accumulator (initially
the empty dict), walk the directory in glob order, inserting each record
that parses and skipping (with a printed warning) each corrupt file. -/
def buildCacheEntriesAux : List (String × Doc) → List (String × DiskFile) → List (String × Doc)
  | acc, [] => acc
  | acc, (k, .good d) :: rest => buildCacheEntriesAux (ainsert acc k d) rest
  | acc, (_, .corrupt) :: rest => buildCacheEntriesAux acc rest

/-- The in-memory dict produced by the build_cache loop over a directory. -/
def buildCacheEntries (disk : List (String × DiskFile)) : List (String × Doc) :=
  buildCacheEntriesAux [] disk

/-- build_cache: reset the in-memory cache, reload every parseable record
from the embeddings directory (skipping corrupt files), save the snapshot
(save_cache) and replace the metadata dict with last_built, total_documents
and cache_version (save_cache_metadata). -/
def build_cache (st : DMState) (now : Nat) : DMState :=
  let entries := buildCacheEntries st.disk
  { disk := st.disk
    cache := entries
    snapshot := entries
    metadata :=
      { last_built := some now
        last_updated := none
        total_documents := some entries.length
        cache_version := some "1.0" } }

/-- Errors raised by get_document: FileNotFoundError when no record file
exists for the id, JSONDecodeError when the file exists but is corrupt. -/
inductive GetErr where
  | notFound
  | corrupt
deriving Repr, DecidableEq

/-- get_document: serve from the in-memory cache when the id is present;
otherwise fall back to the record file on disk, raising notFound when it
is absent and corrupt when it does not parse, and on success insert the
loaded record into the cache.  The third component counts disk accesses
(zero on a cache hit). -/
def get_document (st : DMState) (docId : String) :
    Except GetErr Doc × DMState × Nat :=
  match alookup st.cache docId with
  | some doc => (.ok doc, st, 0)
  | none =>
    match alookup st.disk docId with
    | none => (.error .notFound, st, 1)
    | some .corrupt => (.error .corrupt, st, 1)
    | some (.good doc) =>
        (.ok doc, { st with cache := ainsert st.cache docId doc }, 1)

/-- One attempt against the remote embedding provider: the successful
response or one of the exception classes the source catches
(RateLimitError, APITimeoutError, APIConnectionError, OpenAIError,
anything else). -/
inductive ProviderOutcome where
  | success (v : List ℚ)
  | rateLimited
  | timeout
  | connectionError
  | apiError
  | otherError
deriving Repr, DecidableEq

/-- The failure surfaced by generate_embedding.  implicitNone models the
Python implicit None return when the retry loop runs zero iterations
(only possible with max_retries = 0). -/
inductive GenErr where
  | rateLimited
  | timeout
  | connectionFailed
  | providerError
  | other
  | implicitNone
deriving Repr, DecidableEq

/-- Decidable equality for Except, needed to evaluate concrete outcomes. -/
instance {ε α : Type} [DecidableEq ε] [DecidableEq α] : DecidableEq (Except ε α) :=
  fun x y =>
  match x, y with
  | .error e, .error f =>
      if h : e = f then .isTrue (congrArg Except.error h)
      else .isFalse (fun hh => h (Except.error.inj hh))
  | .ok a, .ok b =>
      if h : a = b then .isTrue (congrArg Except.ok h)
      else .isFalse (fun hh => h (Except.ok.inj hh))
  | .error _, .ok _ => .isFalse (fun hh => Except.noConfusion hh)
  | .ok _, .error _ => .isFalse (fun hh => Except.noConfusion hh)

/-- The observable outcome of generate_embedding: the returned value or
raised error, the list of time.sleep durations in order, and the number of
provider calls made. -/
structure GenResult where
  result : Except GenErr (List ℚ)
  waits : List Nat
  calls : Nat
deriving Repr, DecidableEq

/-- The retry loop of generate_embedding, one constructor case per except
clause: RateLimitError waits (attempt+1)*2 seconds before the next attempt
unless this was the last attempt, in which case it re-raises; timeouts wait
1 second, connection errors 2 seconds, with the same last-attempt rule;
OpenAIError and unexpected errors re-raise immediately.  fuel is the
number of loop iterations remaining, attempt the current index. -/
def generate_embedding_go (provider : Nat → ProviderOutcome) (maxRetries : Nat) :
    Nat → Nat → List Nat → Nat → GenResult
  | 0, _, waits, calls => ⟨.error .implicitNone, waits, calls⟩
  | fuel + 1, attempt, waits, calls =>
    match provider attempt with
    | .success v => ⟨.ok v, waits, calls + 1⟩
    | .rateLimited =>
        if attempt < maxRetries - 1 then
          generate_embedding_go provider maxRetries fuel (attempt + 1)
            (waits ++ [(attempt + 1) * 2]) (calls + 1)
        else ⟨.error .rateLimited, waits, calls + 1⟩
    | .timeout =>
        if attempt < maxRetries - 1 then
          generate_embedding_go provider maxRetries fuel (attempt + 1)
            (waits ++ [1]) (calls + 1)
        else ⟨.error .timeout, waits, calls + 1⟩
    | .connectionError =>
        if attempt < maxRetries - 1 then
          generate_embedding_go provider maxRetries fuel (attempt + 1)
            (waits ++ [2]) (calls + 1)
        else ⟨.error .connectionFailed, waits, calls + 1⟩
    | .apiError => ⟨.error .providerError, waits, calls + 1⟩
    | .otherError => ⟨.error .other, waits, calls + 1⟩

/-- generate_embedding with retry logic: for attempt in range(max_retries). -/
def generate_embedding (provider : Nat → ProviderOutcome) (maxRetries : Nat) : GenResult :=
  generate_embedding_go provider maxRetries maxRetries 0 [] 0

/-- Python str.strip(): remove leading and trailing whitespace.  Defined
through the character list so that it evaluates by kernel reduction. -/
def pyStrip (s : String) : String :=
  String.mk (((s.toList.dropWhile Char.isWhitespace).reverse.dropWhile
    Char.isWhitespace).reverse)

/-- Provenance of the file being ingested: name, stem, lowercased suffix
and full path. -/
structure FileInfo where
  name : String
  stem : String
  suffix : String
  path : String
deriving Repr, DecidableEq

/-- Errors raised by add_document: FileNotFoundError, the ValueError for
empty extracted content, or a propagated generate_embedding failure. -/
inductive AddErr where
  | fileNotFound
  | emptyContent
  | embedFailed (e : GenErr)
deriving Repr, DecidableEq

/-- The observable outcome of add_document: the returned doc_id or raised
error, the resulting state, and the number of embedding-provider calls. -/
structure AddResult where
  result : Except AddErr String
  state : DMState
  embedCalls : Nat
deriving Repr, DecidableEq

/-- add_document: raise FileNotFoundError when the file is absent; raise
ValueError when the extracted content strips to empty; otherwise call
generate_embedding (max_retries 3) and propagate its failure; on success
build the record, write it to the embeddings directory under the file
stem, insert it into the in-memory cache, save the snapshot, and update
last_updated and total_documents in the metadata.  Text extraction is a
collaborator, so the extracted content is a parameter. -/
def add_document (st : DMState) (f : FileInfo) (fileExists : Bool)
    (content : String) (provider : Nat → ProviderOutcome) (now : Nat) :
    AddResult :=
  if !fileExists then ⟨.error .fileNotFound, st, 0⟩
  else if pyStrip content = "" then ⟨.error .emptyContent, st, 0⟩
  else
    let gen := generate_embedding provider 3
    match gen.result with
    | .error e => ⟨.error (.embedFailed e), st, gen.calls⟩
    | .ok embedding =>
        let doc : Doc :=
          { original_filename := f.name
            original_path := f.path
            file_type := f.suffix
            content := content
            embedding := embedding
            added_date := now }
        let docId := f.stem
        let cacheNew := ainsert st.cache docId doc
        ⟨.ok docId,
         { disk := ainsert st.disk docId (.good doc)
           cache := cacheNew
           snapshot := cacheNew
           metadata :=
             { st.metadata with
                 last_updated := some now
                 total_documents := some cacheNew.length } },
         gen.calls⟩

/-- Sum of squares of a vector: the square of np.linalg.norm. -/
def normSq (v : List ℚ) : ℚ := (v.map (fun x => x * x)).sum

/-- Dot product of two vectors (np.dot on equal-length 1-d arrays). -/
def dotProd (a b : List ℚ) : ℚ := (List.zipWith (fun x y => x * y) a b).sum

/-- The value computed by cosine_similarity together with a flag recording
whether the division by the product of norms was executed. -/
structure SimOutcome where
  value : ℚ
  usedDivision : Bool
deriving Repr, DecidableEq

/-- cosine_similarity, instrumented: return 0.0 on shape mismatch (for 1-d
arrays, shape equality is length equality); return 0.0 when either norm is
zero; otherwise divide the dot product by the product of norms.  The norm
of v is sqrtF (normSq v) where sqrtF stands for the square root. -/
def cosine_similarity_full (sqrtF : ℚ → ℚ) (a b : List ℚ) : SimOutcome :=
  if a.length ≠ b.length then ⟨0, false⟩
  else
    let norm1 := sqrtF (normSq a)
    let norm2 := sqrtF (normSq b)
    if norm1 = 0 ∨ norm2 = 0 then ⟨0, false⟩
    else ⟨dotProd a b / (norm1 * norm2), true⟩

/-- cosine_similarity: the value returned to the caller. -/
def cosine_similarity (sqrtF : ℚ → ℚ) (a b : List ℚ) : ℚ :=
  (cosine_similarity_full sqrtF a b).value

/-- One entry of the list returned by find_similar_documents. -/
structure SimResult where
  id : String
  filename : String
  file_type : String
  similarity : ℚ
deriving Repr, DecidableEq

/-- Stable insertion keeping elements with key ≥ the inserted key first:
the building block of a stable descending sort, matching Python
list.sort(key=..., reverse=True). -/
def insertDesc {α : Type} (key : α → ℚ) (x : α) : List α → List α
  | [] => [x]
  | y :: ys => if key x ≥ key y then x :: y :: ys else y :: insertDesc key x ys

/-- Stable descending insertion sort by a rational key. -/
def sortDesc {α : Type} (key : α → ℚ) : List α → List α
  | [] => []
  | x :: xs => insertDesc key x (sortDesc key xs)

/-- find_similar_documents: look the query document up via get_document
(any exception is caught and yields the empty result list); return the
empty list when the query record has no embedding; otherwise scan the
in-memory cache (as left by the get_document call) in dict order, skipping
the query id itself and every entry without an embedding, keep entries
whose cosine similarity reaches the threshold, and sort descending by
similarity.  Returns the results together with the resulting state. -/
def find_similar_documents (sqrtF : ℚ → ℚ) (st : DMState) (queryDocId : String)
    (threshold : ℚ) : List SimResult × DMState :=
  let g := get_document st queryDocId
  match g.1 with
  | .error _ => ([], g.2.1)
  | .ok queryDoc =>
    let stAfter := g.2.1
    if queryDoc.embedding = [] then ([], stAfter)
    else
      let collected := stAfter.cache.filterMap (fun kd =>
        if kd.1 = queryDocId then none
        else if kd.2.embedding = [] then none
        else
          let sim := cosine_similarity sqrtF queryDoc.embedding kd.2.embedding
          if sim ≥ threshold then
            some { id := kd.1
                   filename := kd.2.original_filename
                   file_type := kd.2.file_type
                   similarity := sim }
          else none)
      (sortDesc (fun r => r.similarity) collected, stAfter)

/-- One entry of the list returned by search_by_query; unlike SimResult it
carries a content preview. -/
structure SearchResult where
  id : String
  filename : String
  file_type : String
  similarity : ℚ
  content : String
deriving Repr, DecidableEq

/-- Python string slicing s[:n]: the first n characters of s. -/
def pythonSlice (s : String) (n : Nat) : String := String.mk (s.toList.take n)

/-- search_by_query: generate an embedding for the query text (any failure
is caught and yields the empty result list); scan the whole in-memory
cache in dict order with no self-exclusion, skipping entries without an
embedding, keep entries whose similarity reaches the threshold, attaching
the content truncated to the first 2000 characters plus an ellipsis when
it is longer than 2000 characters, and sort descending by similarity. -/
def search_by_query (sqrtF : ℚ → ℚ) (provider : Nat → ProviderOutcome)
    (st : DMState) (threshold : ℚ) : List SearchResult :=
  match (generate_embedding provider 3).result with
  | .error _ => []
  | .ok queryEmbedding =>
    let collected := st.cache.filterMap (fun kd =>
      if kd.2.embedding = [] then none
      else
        let sim := cosine_similarity sqrtF queryEmbedding kd.2.embedding
        if sim ≥ threshold then
          some { id := kd.1
                 filename := kd.2.original_filename
                 file_type := kd.2.file_type
                 similarity := sim
                 content :=
                   if kd.2.content.length > 2000 then
                     pythonSlice kd.2.content 2000 ++ "..."
                   else kd.2.content }
        else none)
    sortDesc (fun r => r.similarity) collected

/-! Helper lemmas about the association-list operations, the sort and the
similarity ingredients. -/

/-- Looking up the key just inserted returns the inserted value. -/
theorem alookup_ainsert_self {α : Type} (l : List (String × α)) (k : String) (v : α) :
    alookup (ainsert l k v) k = some v := by
  induction l with
  | nil => simp [ainsert, alookup]
  | cons hd tl ih =>
    obtain ⟨k1, v1⟩ := hd
    by_cases h : k1 = k
    · simp [ainsert, h, alookup]
    · simp [ainsert, h, alookup, ih]

/-- The key set after an insertion is the old key set plus the new key. -/
theorem mem_keys_ainsert {α : Type} (l : List (String × α)) (k k' : String) (v : α) :
    k' ∈ (ainsert l k v).map Prod.fst ↔ k' = k ∨ k' ∈ l.map Prod.fst := by
  induction l with
  | nil => simp [ainsert]
  | cons hd tl ih =>
    obtain ⟨k1, v1⟩ := hd
    by_cases h : k1 = k
    · subst h
      simp [ainsert]
    · simp [ainsert, h, ih]
      tauto

/-- Every entry after an insertion is the inserted pair or an old entry. -/
theorem mem_ainsert {α : Type} {x : String × α} {l : List (String × α)} {k : String} {v : α}
    (hx : x ∈ ainsert l k v) : x = (k, v) ∨ x ∈ l := by
  induction l with
  | nil => simpa [ainsert] using hx
  | cons hd tl ih =>
    obtain ⟨k1, v1⟩ := hd
    by_cases h : k1 = k
    · subst h
      rcases (by simpa [ainsert] using hx : x = (k1, v) ∨ x ∈ tl) with h1 | h1
      · exact Or.inl h1
      · exact Or.inr (List.mem_cons_of_mem _ h1)
    · rcases (by simpa [ainsert, h] using hx : x = (k1, v1) ∨ x ∈ ainsert tl k v) with h1 | h1
      · exact Or.inr (by simp [h1])
      · rcases ih h1 with h2 | h2
        · exact Or.inl h2
        · exact Or.inr (List.mem_cons_of_mem _ h2)

/-- Membership is preserved by the stable descending insertion. -/
theorem mem_insertDesc {α : Type} (key : α → ℚ) (x a : α) (l : List α) :
    a ∈ insertDesc key x l ↔ a = x ∨ a ∈ l := by
  induction l with
  | nil => simp [insertDesc]
  | cons y ys ih =>
    by_cases h : key x ≥ key y
    · simp [insertDesc, h]
    · simp [insertDesc, h, ih]
      tauto

/-- The stable descending sort is a permutation as far as membership goes. -/
theorem mem_sortDesc {α : Type} (key : α → ℚ) (a : α) (l : List α) :
    a ∈ sortDesc key l ↔ a ∈ l := by
  induction l with
  | nil => simp [sortDesc]
  | cons x xs ih => simp [sortDesc, mem_insertDesc, ih]

/-- A vector all of whose components are zero has zero sum of squares. -/
theorem normSq_eq_zero_of_all_zero {v : List ℚ} (h : ∀ x ∈ v, x = 0) :
    normSq v = 0 := by
  induction v with
  | nil => simp [normSq]
  | cons x xs ih =>
    have hx : x = 0 := h x (List.mem_cons_self x xs)
    have hxs : normSq xs = 0 := ih (fun y hy => h y (List.mem_cons_of_mem _ hy))
    simp [normSq] at hxs ⊢
    simp [hx, hxs]

/-- The keys present after the build_cache loop: the keys of the
accumulator together with the stems of the parseable files. -/
theorem mem_keys_buildCacheEntriesAux (acc : List (String × Doc))
    (l : List (String × DiskFile)) (k : String) :
    k ∈ (buildCacheEntriesAux acc l).map Prod.fst ↔
      k ∈ acc.map Prod.fst ∨ ∃ d, (k, DiskFile.good d) ∈ l := by
  induction l generalizing acc with
  | nil => simp [buildCacheEntriesAux]
  | cons hd tl ih =>
    obtain ⟨k1, f1⟩ := hd
    cases f1 with
    | good d =>
      rw [buildCacheEntriesAux, ih, mem_keys_ainsert]
      constructor
      · rintro ((h | h) | ⟨d2, h⟩)
        · exact Or.inr ⟨d, by simp [h]⟩
        · exact Or.inl h
        · exact Or.inr ⟨d2, List.mem_cons_of_mem _ h⟩
      · rintro (h | ⟨d2, h⟩)
        · exact Or.inl (Or.inr h)
        · rcases List.mem_cons.mp h with h1 | h1
          · exact Or.inl (Or.inl (congrArg Prod.fst h1))
          · exact Or.inr ⟨d2, h1⟩
    | corrupt =>
      rw [buildCacheEntriesAux, ih]
      constructor
      · rintro (h | ⟨d2, h⟩)
        · exact Or.inl h
        · exact Or.inr ⟨d2, List.mem_cons_of_mem _ h⟩
      · rintro (h | ⟨d2, h⟩)
        · exact Or.inl h
        · rcases List.mem_cons.mp h with h1 | h1
          · exact absurd h1 (by simp)
          · exact Or.inr ⟨d2, h1⟩

/-- The length of a Python slice s[:n]. -/
theorem pythonSlice_length (s : String) (n : Nat) :
    (pythonSlice s n).length = min n s.length := by
  show (s.toList.take n).length = min n s.length
  rw [List.length_take]
  rfl

/-- On a successful get_document, every cache entry of the resulting state
whose key is not the requested id was already in the cache. -/
theorem get_document_cache_superset {st : DMState} {docId : String} {doc : Doc}
    (h : (get_document st docId).1 = .ok doc) :
    ∀ kd ∈ (get_document st docId).2.1.cache, kd.1 ≠ docId → kd ∈ st.cache := by
  intro kd hkd hne
  unfold get_document at h hkd
  cases hc : alookup st.cache docId with
  | some d => rw [hc] at hkd; exact hkd
  | none =>
    rw [hc] at h hkd
    cases hd : alookup st.disk docId with
    | none => rw [hd] at h; exact absurd h (by simp)
    | some f =>
      cases f with
      | corrupt => rw [hd] at h; exact absurd h (by simp)
      | good d =>
        rw [hd] at hkd
        rcases mem_ainsert hkd with h1 | h1
        · exact absurd (by rw [h1]) hne
        · exact h1

/-! Claim theorems. -/

/-- Claim C4: an ingestion whose extracted text is empty or
whitespace-only fails with the EmptyContent ValueError, the state (record
store, cache and metadata) is left completely unchanged, and zero calls
are made to the embedding provider. -/
theorem add_document_empty_content (st : DMState) (f : FileInfo)
    (content : String) (provider : Nat → ProviderOutcome) (now : Nat)
    (h : pyStrip content = "") :
    add_document st f true content provider now = ⟨.error .emptyContent, st, 0⟩ := by
  simp [add_document, h]

/-- Witness for C4 at a whitespace-only content on the empty state. -/
theorem add_document_empty_content_witness :
    add_document ⟨[], [], [], emptyMeta⟩ ⟨"a.txt", "a", ".txt", "kb/a.txt"⟩ true
        "  \t " (fun _ => .success [1]) 5 =
      ⟨.error .emptyContent, ⟨[], [], [], emptyMeta⟩, 0⟩ :=
  add_document_empty_content _ _ _ _ _ (by decide)

/-- Claim C5: with max_retries = 3 and a provider that answers RateLimited
on every attempt, generate_embedding sleeps exactly twice (2 seconds after
the first attempt and 4 after the second, none after the third), makes
three provider calls, and surfaces the RateLimited failure. -/
theorem generate_embedding_rate_limited (provider : Nat → ProviderOutcome)
    (h : ∀ i < 3, provider i = .rateLimited) :
    generate_embedding provider 3 = ⟨.error .rateLimited, [2, 4], 3⟩ := by
  have h0 := h 0 (by norm_num)
  have h1 := h 1 (by norm_num)
  have h2 := h 2 (by norm_num)
  simp [generate_embedding, generate_embedding_go, h0, h1, h2]

/-- Witness for C5 with the constant RateLimited provider. -/
theorem generate_embedding_rate_limited_witness :
    generate_embedding (fun _ => .rateLimited) 3 = ⟨.error .rateLimited, [2, 4], 3⟩ :=
  generate_embedding_rate_limited _ (fun _ _ => rfl)

/-- Claim C6: on vectors of different lengths, cosine_similarity returns
exactly 0.0; the function is total (never raises) and the division is not
executed. -/
theorem cosine_similarity_length_mismatch (sqrtF : ℚ → ℚ) (a b : List ℚ)
    (h : a.length ≠ b.length) :
    cosine_similarity sqrtF a b = 0 ∧
    cosine_similarity_full sqrtF a b = ⟨0, false⟩ := by
  constructor
  · simp [cosine_similarity, cosine_similarity_full, h]
  · simp [cosine_similarity_full, h]

/-- Witness for C6 at the concrete vectors [1] and [1, 2]. -/
theorem cosine_similarity_length_mismatch_witness :
    cosine_similarity id [(1 : ℚ)] [1, 2] = 0 ∧
    cosine_similarity_full id [(1 : ℚ)] [1, 2] = ⟨0, false⟩ :=
  cosine_similarity_length_mismatch id [(1 : ℚ)] [1, 2] (by decide)

/-- Claim C7: on equal-length vectors at least one of which is all-zero,
cosine_similarity returns 0.0 through the zero-norm guard and the division
by the product of norms is never executed (usedDivision is false), for
every square-root function mapping 0 to 0, as the real square root does. -/
theorem cosine_similarity_zero_vector (sqrtF : ℚ → ℚ) (a b : List ℚ)
    (hsq : sqrtF 0 = 0) (hlen : a.length = b.length)
    (hzero : (∀ x ∈ a, x = 0) ∨ (∀ x ∈ b, x = 0)) :
    cosine_similarity sqrtF a b = 0 ∧
    cosine_similarity_full sqrtF a b = ⟨0, false⟩ := by
  have hguard : sqrtF (normSq a) = 0 ∨ sqrtF (normSq b) = 0 := by
    rcases hzero with h | h
    · exact Or.inl (by rw [normSq_eq_zero_of_all_zero h, hsq])
    · exact Or.inr (by rw [normSq_eq_zero_of_all_zero h, hsq])
  constructor
  · simp [cosine_similarity, cosine_similarity_full, hlen, hguard]
  · simp [cosine_similarity_full, hlen, hguard]

/-- Witness for C7 at the concrete vectors [0, 0] and [1, 2]. -/
theorem cosine_similarity_zero_vector_witness :
    cosine_similarity id [(0 : ℚ), 0] [1, 2] = 0 ∧
    cosine_similarity_full id [(0 : ℚ), 0] [1, 2] = ⟨0, false⟩ :=
  cosine_similarity_zero_vector id [(0 : ℚ), 0] [1, 2] rfl (by decide)
    (Or.inl (by decide))

/-- Claim C9: when the requested id is absent from the in-memory cache but
its record file exists and parses, get_document returns the record loaded
from disk (one disk access) and inserts it into the cache, after which a
second get_document for the same id is served from the cache with zero
disk accesses and no further state change. -/
theorem get_document_disk_fallback (st : DMState) (docId : String) (doc : Doc)
    (hc : alookup st.cache docId = none)
    (hd : alookup st.disk docId = some (.good doc)) :
    get_document st docId =
      (.ok doc, { st with cache := ainsert st.cache docId doc }, 1) ∧
    get_document { st with cache := ainsert st.cache docId doc } docId =
      (.ok doc, { st with cache := ainsert st.cache docId doc }, 0) := by
  constructor
  · simp [get_document, hc, hd]
  · simp [get_document, alookup_ainsert_self]

/-- Witness for C9 at a store holding one record that is not cached. -/
theorem get_document_disk_fallback_witness :
    get_document ⟨[("d", .good ⟨"d.txt", "kb/d.txt", ".txt", "c", [1], 0⟩)], [], [], emptyMeta⟩ "d" =
      (.ok ⟨"d.txt", "kb/d.txt", ".txt", "c", [1], 0⟩,
       ⟨[("d", .good ⟨"d.txt", "kb/d.txt", ".txt", "c", [1], 0⟩)],
        [("d", ⟨"d.txt", "kb/d.txt", ".txt", "c", [1], 0⟩)], [], emptyMeta⟩, 1) ∧
    get_document ⟨[("d", .good ⟨"d.txt", "kb/d.txt", ".txt", "c", [1], 0⟩)],
        [("d", ⟨"d.txt", "kb/d.txt", ".txt", "c", [1], 0⟩)], [], emptyMeta⟩ "d" =
      (.ok ⟨"d.txt", "kb/d.txt", ".txt", "c", [1], 0⟩,
       ⟨[("d", .good ⟨"d.txt", "kb/d.txt", ".txt", "c", [1], 0⟩)],
        [("d", ⟨"d.txt", "kb/d.txt", ".txt", "c", [1], 0⟩)], [], emptyMeta⟩, 0) :=
  get_document_disk_fallback _ "d" _ rfl rfl

/-- Counterexample to C1 as stated: a store holding a single corrupt
record file.  build_cache completes (the corrupt file is skipped, the
cache and its metadata are rebuilt with zero documents), yet
is_cache_valid is false immediately afterwards, because the validity check
globs every *.json file, corrupt ones included, while the rebuilt cache
holds only the parseable ones. -/
theorem build_cache_corrupt_counterexample :
    is_cache_valid (build_cache ⟨[("a", .corrupt)], [], [], emptyMeta⟩ 0) = false ∧
    (build_cache ⟨[("a", .corrupt)], [], [], emptyMeta⟩ 0).cache = [] ∧
    (build_cache ⟨[("a", .corrupt)], [], [], emptyMeta⟩ 0).metadata =
      ⟨some 0, none, some 0, some "1.0"⟩ :=
  ⟨by decide, rfl, rfl⟩

/-- Claim C1 amended: after build_cache the cache holds exactly the
parseable records and, provided no record file in the store is corrupt,
is_cache_valid returns true.  Corrupt files are skipped without aborting
the rebuild (the counterexample shows the rebuild completing over a
corrupt store), but their presence makes is_cache_valid return false. -/
theorem build_cache_valid_of_no_corrupt (st : DMState) (now : Nat)
    (h : ∀ kf ∈ st.disk, kf.2 ≠ DiskFile.corrupt) :
    is_cache_valid (build_cache st now) = true := by
  simp only [is_cache_valid, build_cache, decide_eq_true_eq]
  constructor
  · intro k hk
    rcases List.mem_map.mp hk with ⟨kf, hkf, hfst⟩
    have hgood : ∃ d, kf.2 = DiskFile.good d := by
      cases hf : kf.2 with
      | good d => exact ⟨d, rfl⟩
      | corrupt => exact absurd hf (h kf hkf)
    rcases hgood with ⟨d, hd⟩
    rw [show (buildCacheEntries st.disk) = buildCacheEntriesAux [] st.disk from rfl]
    rw [mem_keys_buildCacheEntriesAux]
    refine Or.inr ⟨d, ?_⟩
    have : kf = (k, DiskFile.good d) := by
      obtain ⟨k1, f1⟩ := kf
      simp at hfst hd
      rw [hfst, hd]
    rw [← this]
    exact hkf
  · intro k hk
    rw [show (buildCacheEntries st.disk) = buildCacheEntriesAux [] st.disk from rfl] at hk
    rw [mem_keys_buildCacheEntriesAux] at hk
    rcases hk with h1 | ⟨d, h1⟩
    · exact absurd h1 (by simp)
    · exact List.mem_map.mpr ⟨(k, DiskFile.good d), h1, rfl⟩

/-- Witness for the amended C1 at a store with one parseable record. -/
theorem build_cache_valid_of_no_corrupt_witness :
    is_cache_valid
      (build_cache ⟨[("a", .good ⟨"a.txt", "kb/a.txt", ".txt", "c", [1], 0⟩)],
        [], [], emptyMeta⟩ 7) = true :=
  build_cache_valid_of_no_corrupt _ 7 (by decide)

/-- Counterexample to C2 as stated: ingesting into a state whose cache
already diverges from the record store (a ghost cache entry with no record
file).  The ingestion succeeds and the new record is retrievable, yet
is_cache_valid is false immediately afterwards, because add_document only
adds the new entry and never reconciles a pre-existing divergence. -/
theorem add_document_valid_counterexample :
    (add_document ⟨[], [("ghost", ⟨"g.txt", "kb/g.txt", ".txt", "c", [1], 0⟩)], [], emptyMeta⟩
        ⟨"a.txt", "a", ".txt", "kb/a.txt"⟩ true "hello" (fun _ => .success [1]) 5).result =
      .ok "a" ∧
    is_cache_valid
      (add_document ⟨[], [("ghost", ⟨"g.txt", "kb/g.txt", ".txt", "c", [1], 0⟩)], [], emptyMeta⟩
        ⟨"a.txt", "a", ".txt", "kb/a.txt"⟩ true "hello" (fun _ => .success [1]) 5).state =
      false :=
  ⟨by decide, by decide⟩

/-- Claim C2 amended: when the embedding provider succeeds and the
extracted content is non-blank, add_document returns the file stem as id,
writes the record to the store, inserts it into the cache and updates the
metadata, so that get_document on the resulting state returns a record
equal to the one constructed; is_cache_valid holds afterwards provided it
held before the ingestion. -/
theorem add_document_ok (st : DMState) (f : FileInfo) (content : String)
    (provider : Nat → ProviderOutcome) (now : Nat) (v : List ℚ)
    (hvalid : is_cache_valid st = true)
    (hcontent : pyStrip content ≠ "")
    (hembed : (generate_embedding provider 3).result = .ok v) :
    (add_document st f true content provider now).result = .ok f.stem ∧
    (get_document (add_document st f true content provider now).state f.stem).1 =
      .ok ⟨f.name, f.path, f.suffix, content, v, now⟩ ∧
    is_cache_valid (add_document st f true content provider now).state = true := by
  have hadd : add_document st f true content provider now =
      ⟨.ok f.stem,
       { disk := ainsert st.disk f.stem (.good ⟨f.name, f.path, f.suffix, content, v, now⟩)
         cache := ainsert st.cache f.stem ⟨f.name, f.path, f.suffix, content, v, now⟩
         snapshot := ainsert st.cache f.stem ⟨f.name, f.path, f.suffix, content, v, now⟩
         metadata :=
           { st.metadata with
               last_updated := some now
               total_documents :=
                 some (ainsert st.cache f.stem
                   ⟨f.name, f.path, f.suffix, content, v, now⟩).length } },
       (generate_embedding provider 3).calls⟩ := by
    simp [add_document, hcontent, hembed]
  refine ⟨by rw [hadd], ?_, ?_⟩
  · rw [hadd]
    simp [get_document, alookup_ainsert_self]
  · rw [hadd]
    simp only [is_cache_valid, decide_eq_true_eq] at hvalid ⊢
    obtain ⟨hv1, hv2⟩ := hvalid
    constructor
    · intro k hk
      rw [mem_keys_ainsert] at hk ⊢
      rcases hk with h1 | h1
      · exact Or.inl h1
      · exact Or.inr (hv1 k h1)
    · intro k hk
      rw [mem_keys_ainsert] at hk ⊢
      rcases hk with h1 | h1
      · exact Or.inl h1
      · exact Or.inr (hv2 k h1)

/-- Witness for the amended C2: ingesting into the empty (valid) state. -/
theorem add_document_ok_witness :
    (add_document ⟨[], [], [], emptyMeta⟩ ⟨"a.txt", "a", ".txt", "kb/a.txt"⟩ true "hello"
        (fun _ => .success [1]) 5).result = .ok "a" ∧
    (get_document (add_document ⟨[], [], [], emptyMeta⟩ ⟨"a.txt", "a", ".txt", "kb/a.txt"⟩
        true "hello" (fun _ => .success [1]) 5).state "a").1 =
      .ok ⟨"a.txt", "kb/a.txt", ".txt", "hello", [1], 5⟩ ∧
    is_cache_valid (add_document ⟨[], [], [], emptyMeta⟩ ⟨"a.txt", "a", ".txt", "kb/a.txt"⟩
        true "hello" (fun _ => .success [1]) 5).state = true :=
  add_document_ok _ _ _ _ _ _ (by decide) (by decide) rfl

/-- Counterexample to C3 as stated: on the empty state, where the id is
absent from both the cache and the store, get_document raises
FileNotFoundError internally, but find_similar_documents catches it and
returns the empty list normally rather than failing with NotFound. -/
theorem find_similar_absent_counterexample :
    (get_document ⟨[], [], [], emptyMeta⟩ "missing").1 = .error .notFound ∧
    find_similar_documents id ⟨[], [], [], emptyMeta⟩ "missing" 0 =
      ([], ⟨[], [], [], emptyMeta⟩) :=
  ⟨rfl, rfl⟩

/-- Claim C3 amended: for a query id absent from both the cache and the
record store, the internal get_document lookup fails with NotFound, and
find_similar_documents catches that failure, reports it, and returns the
empty result list with the state unchanged instead of propagating the
error. -/
theorem find_similar_absent (sqrtF : ℚ → ℚ) (st : DMState) (queryDocId : String)
    (threshold : ℚ)
    (hc : alookup st.cache queryDocId = none)
    (hd : alookup st.disk queryDocId = none) :
    (get_document st queryDocId).1 = .error .notFound ∧
    find_similar_documents sqrtF st queryDocId threshold = ([], st) := by
  have hg : get_document st queryDocId = (.error .notFound, st, 1) := by
    simp [get_document, hc, hd]
  exact ⟨by rw [hg], by simp [find_similar_documents, hg]⟩

/-- Witness for the amended C3 at a one-document state and an absent id. -/
theorem find_similar_absent_witness :
    (get_document ⟨[("d", .good ⟨"d.txt", "kb/d.txt", ".txt", "c", [1], 0⟩)],
        [("d", ⟨"d.txt", "kb/d.txt", ".txt", "c", [1], 0⟩)], [], emptyMeta⟩ "zzz").1 =
      .error .notFound ∧
    find_similar_documents id ⟨[("d", .good ⟨"d.txt", "kb/d.txt", ".txt", "c", [1], 0⟩)],
        [("d", ⟨"d.txt", "kb/d.txt", ".txt", "c", [1], 0⟩)], [], emptyMeta⟩ "zzz" 0 =
      ([], ⟨[("d", .good ⟨"d.txt", "kb/d.txt", ".txt", "c", [1], 0⟩)],
        [("d", ⟨"d.txt", "kb/d.txt", ".txt", "c", [1], 0⟩)], [], emptyMeta⟩) :=
  find_similar_absent id _ "zzz" 0 rfl rfl

/-- Every result of search_by_query comes from a cache entry with a
non-empty embedding, carries that entry's key as id, and carries that
entry's content truncated by the 2000-character preview rule. -/
theorem mem_search_by_query {sqrtF : ℚ → ℚ} {provider : Nat → ProviderOutcome}
    {st : DMState} {threshold : ℚ} {r : SearchResult}
    (hr : r ∈ search_by_query sqrtF provider st threshold) :
    ∃ kd ∈ st.cache, kd.2.embedding ≠ [] ∧ r.id = kd.1 ∧
      r.content = (if kd.2.content.length > 2000 then
        pythonSlice kd.2.content 2000 ++ "..." else kd.2.content) := by
  unfold search_by_query at hr
  cases hgen : (generate_embedding provider 3).result with
  | error e => rw [hgen] at hr; simp at hr
  | ok qe =>
    rw [hgen] at hr
    simp only [] at hr
    rw [mem_sortDesc] at hr
    rcases List.mem_filterMap.mp hr with ⟨kd, hkd, hf⟩
    by_cases he : kd.2.embedding = []
    · simp [he] at hf
    · by_cases hs : cosine_similarity sqrtF qe kd.2.embedding ≥ threshold
      · simp [he, hs] at hf
        exact ⟨kd, hkd, he, by rw [← hf], by rw [← hf]⟩
      · simp [he, hs] at hf

/-- Every result of find_similar_documents comes from an entry of the
cache as left by the get_document lookup, is not the query id itself, has
a non-empty embedding, and the lookup succeeded. -/
theorem mem_find_similar {sqrtF : ℚ → ℚ} {st : DMState} {queryDocId : String}
    {threshold : ℚ} {r : SimResult}
    (hr : r ∈ (find_similar_documents sqrtF st queryDocId threshold).1) :
    ∃ kd ∈ (get_document st queryDocId).2.1.cache,
      kd.1 ≠ queryDocId ∧ kd.2.embedding ≠ [] ∧ r.id = kd.1 ∧
      ∃ doc, (get_document st queryDocId).1 = .ok doc := by
  unfold find_similar_documents at hr
  simp only [] at hr
  cases hq : (get_document st queryDocId).1 with
  | error e => rw [hq] at hr; simp at hr
  | ok queryDoc =>
    rw [hq] at hr
    dsimp only [] at hr
    by_cases hqe : queryDoc.embedding = []
    · simp [hqe] at hr
    · rw [if_neg hqe] at hr
      dsimp only [] at hr
      rw [mem_sortDesc] at hr
      rcases List.mem_filterMap.mp hr with ⟨kd, hkd, hf⟩
      by_cases hid : kd.1 = queryDocId
      · simp [hid] at hf
      · by_cases he : kd.2.embedding = []
        · simp [hid, he] at hf
        · by_cases hs :
            cosine_similarity sqrtF queryDoc.embedding kd.2.embedding ≥ threshold
          · simp [hid, he, hs] at hf
            exact ⟨kd, hkd, hid, he, by rw [← hf], queryDoc, rfl⟩
          · simp [hid, he, hs] at hf

/-- Claim C10: a cache entry whose embedding is missing or empty is
skipped before any similarity computation and therefore never appears in
the results of find_similar_documents or search_by_query, for any
threshold. -/
theorem empty_embedding_excluded (sqrtF : ℚ → ℚ) (provider : Nat → ProviderOutcome)
    (st : DMState) (queryDocId docId : String) (threshold : ℚ)
    (h : ∀ kd ∈ st.cache, kd.1 = docId → kd.2.embedding = []) :
    (∀ r ∈ (find_similar_documents sqrtF st queryDocId threshold).1, r.id ≠ docId) ∧
    (∀ r ∈ search_by_query sqrtF provider st threshold, r.id ≠ docId) := by
  constructor
  · intro r hr hid
    rcases mem_find_similar hr with ⟨kd, hkd, hne, hemb, hrid, doc, hok⟩
    have hmem : kd ∈ st.cache := get_document_cache_superset hok kd hkd hne
    exact hemb (h kd hmem (by rw [← hrid, hid]))
  · intro r hr hid
    rcases mem_search_by_query hr with ⟨kd, hkd, hemb, hrid, _⟩
    exact hemb (h kd hkd (by rw [← hrid, hid]))

/-- Witness for C10: a state whose only cache entry has an empty
embedding never contributes a result. -/
theorem empty_embedding_excluded_witness :
    (∀ r ∈ (find_similar_documents id
        ⟨[("e", .good ⟨"e.txt", "kb/e.txt", ".txt", "c", [], 0⟩)],
         [("e", ⟨"e.txt", "kb/e.txt", ".txt", "c", [], 0⟩)], [], emptyMeta⟩ "q" 0).1,
      r.id ≠ "e") ∧
    (∀ r ∈ search_by_query id (fun _ => .success [1])
        ⟨[("e", .good ⟨"e.txt", "kb/e.txt", ".txt", "c", [], 0⟩)],
         [("e", ⟨"e.txt", "kb/e.txt", ".txt", "c", [], 0⟩)], [], emptyMeta⟩ 0,
      r.id ≠ "e") :=
  empty_embedding_excluded id (fun _ => .success [1]) _ "q" "e" 0 (by decide)

/-- The 2001-character content used to exhibit the truncation length. -/
def longContent : String := String.mk (List.replicate 2001 'a')

/-- The document with 2001 characters of content used against C8. -/
def longDoc : Doc := ⟨"b.txt", "kb/b.txt", ".txt", longContent, [0], 0⟩

/-- Counterexample to C8 as stated: a cached document with 2001 characters
of content produces a search result whose content field is 2003 characters
long (the 2000-character preview plus the three-character ellipsis), which
exceeds the claimed bound of 2000 characters. -/
theorem search_truncation_counterexample :
    (search_by_query id (fun _ => .success [(0 : ℚ)])
        ⟨[("b", .good longDoc)], [("b", longDoc)], [], emptyMeta⟩ 0).map
      (fun r => r.content.length) = [2003] := by
  have hgen : (generate_embedding (fun _ => ProviderOutcome.success [(0 : ℚ)]) 3).result =
      .ok [0] := rfl
  have hbl : longDoc.content.length = 2001 := by
    show (List.replicate 2001 'a').length = 2001
    rw [List.length_replicate]
  have hne : ¬(longDoc.embedding = []) := by
    rw [show longDoc.embedding = [0] from rfl]
    simp
  have hsim0 : cosine_similarity id [(0 : ℚ)] longDoc.embedding = 0 := by
    rw [show longDoc.embedding = [0] from rfl]
    simp [cosine_similarity, cosine_similarity_full, normSq]
  have hgt : longDoc.content.length > 2000 := by omega
  have hslice : (pythonSlice longDoc.content 2000 ++ "...").length = 2003 := by
    rw [String.length_append, pythonSlice_length, hbl]
    rfl
  unfold search_by_query
  rw [hgen]
  dsimp only []
  simp only [List.filterMap_cons, List.filterMap_nil]
  rw [if_neg hne, hsim0, if_pos (show (0 : ℚ) ≥ 0 from le_refl 0), if_pos hgt]
  dsimp only [sortDesc, insertDesc, List.map]
  rw [hslice]

/-- Claim C8 amended: every result of search_by_query carries a content
field of at most 2003 characters (the 2000-character preview plus the
three-character ellipsis appended when the source content is longer than
2000 characters), and a result whose source document content is at most
2000 characters carries the content unchanged. -/
theorem search_by_query_content_bound (sqrtF : ℚ → ℚ)
    (provider : Nat → ProviderOutcome) (st : DMState) (threshold : ℚ)
    (r : SearchResult) (hr : r ∈ search_by_query sqrtF provider st threshold) :
    r.content.length ≤ 2003 ∧
    ∃ kd ∈ st.cache, r.id = kd.1 ∧
      (kd.2.content.length ≤ 2000 → r.content = kd.2.content) := by
  rcases mem_search_by_query hr with ⟨kd, hkd, hemb, hrid, hcontent⟩
  have h3 : ("..." : String).length = 3 := rfl
  by_cases hlen : kd.2.content.length > 2000
  · rw [if_pos hlen] at hcontent
    refine ⟨?_, kd, hkd, hrid, ?_⟩
    · rw [hcontent, String.length_append, pythonSlice_length, h3]
      omega
    · intro hc
      omega
  · rw [if_neg hlen] at hcontent
    exact ⟨by rw [hcontent]; omega, kd, hkd, hrid, fun _ => hcontent⟩

/-- Witness for the amended C8 at a short-content document: the result is
in the output, its content is within the bound and unchanged. -/
theorem search_by_query_content_bound_witness :
    (⟨"b", "b.txt", ".txt", 0, "hi"⟩ : SearchResult) ∈
      search_by_query id (fun _ => .success [(0 : ℚ)])
        ⟨[("b", .good ⟨"b.txt", "kb/b.txt", ".txt", "hi", [0], 0⟩)],
         [("b", ⟨"b.txt", "kb/b.txt", ".txt", "hi", [0], 0⟩)], [], emptyMeta⟩ 0 ∧
    ((⟨"b", "b.txt", ".txt", 0, "hi"⟩ : SearchResult).content.length ≤ 2003 ∧
     ∃ kd ∈ [("b", (⟨"b.txt", "kb/b.txt", ".txt", "hi", [0], 0⟩ : Doc))],
       (⟨"b", "b.txt", ".txt", 0, "hi"⟩ : SearchResult).id = kd.1 ∧
       (kd.2.content.length ≤ 2000 →
         (⟨"b", "b.txt", ".txt", 0, "hi"⟩ : SearchResult).content = kd.2.content)) := by
  have hgen : (generate_embedding (fun _ => ProviderOutcome.success [(0 : ℚ)]) 3).result =
      .ok [0] := rfl
  have hsim : cosine_similarity id [(0 : ℚ)] [0] = 0 := by
    simp [cosine_similarity, cosine_similarity_full, normSq]
  have hhl : ("hi" : String).length = 2 := rfl
  have hm : (⟨"b", "b.txt", ".txt", 0, "hi"⟩ : SearchResult) ∈
      search_by_query id (fun _ => .success [(0 : ℚ)])
        ⟨[("b", .good ⟨"b.txt", "kb/b.txt", ".txt", "hi", [0], 0⟩)],
         [("b", ⟨"b.txt", "kb/b.txt", ".txt", "hi", [0], 0⟩)], [], emptyMeta⟩ 0 := by
    unfold search_by_query
    rw [hgen]
    simp only [List.filterMap]
    norm_num [hsim, hhl, sortDesc, insertDesc]
  exact ⟨hm, search_by_query_content_bound _ _ _ _ _ hm⟩

end VecEmb
